import Mathlib

/-!
Verification of the ShellHell action-resolution pipeline.

This file shallowly embeds the pipeline of `src/game/actions.py`,
`src/services/ai_service.py` and `src/models/grimoire.py`:

* `DiceRoller.attribute_check` (actions.py lines 22-59), with the random
  d20 rolls passed in explicitly;
* `ActionValidator.validate` (actions.py lines 71-327);
* `ActionResolver.determine_rewards` (actions.py lines 357-448), with the
  random gold / damage amounts passed in explicitly;
* the known-spell branch of `ActionResolver.resolve_magic_attempt`
  (actions.py lines 547-642) together with `Grimoire.find_spell`
  (grimoire.py lines 78-85) and `apply_spell_effect` (actions.py 450-545);
* the interpreter fallback logic of `AIService.interpret_action`
  (ai_service.py lines 61-218) and the fallback-intent step of
  `ActionResolver.resolve_free_action` (actions.py lines 913-944);
* the failure-tracking / object-destruction fragment of
  `execute_free_action` (actions.py lines 1724-1747);
* the narration-and-impact application fragment of `execute_free_action`
  (actions.py lines 1806-1919).

Python floats are modelled as rationals, Python `int()` as truncation
toward zero, `//` as floor division, membership `in` on strings as
substring search and on lists as equality membership.
-/

/-- Python `str.lower()` on a single character (ASCII case folding, which is
what `Char.toLower` implements). -/
def lowerChar (c : Char) : Char := c.toLower

/-- Python `str.lower()`. -/
def lower (s : String) : String := ⟨s.data.map lowerChar⟩

/-- Python `needle in haystack` on character lists: substring test. -/
def pyInL (needle hay : List Char) : Bool :=
  decide (List.IsInfix needle hay)

/-- Python `needle in haystack` for strings: substring test. -/
def pyIn (needle hay : String) : Bool := pyInL needle.data hay.data

/-- `re.split` on a character class: cut the list at every separator
character (a maximal separator run yields intermediate empty pieces, which
every caller below discards through a minimum-length filter, matching the
`+` in the source's regexes). -/
def splitOn (p : Char → Bool) : List Char → List (List Char)
  | [] => [[]]
  | c :: cs =>
    let r := splitOn p cs
    if p c then [] :: r
    else
      match r with
      | [] => [[c]]
      | w :: ws => (c :: w) :: ws

/-- Python `int(q)` on a float: truncation toward zero. -/
def pyInt (q : ℚ) : ℤ := if 0 ≤ q then ⌊q⌋ else ⌈q⌉

/-- Python `a // b` on ints: floor division. -/
def pyFloorDiv (a b : ℤ) : ℤ := Int.fdiv a b

/-- Python `str.strip()`: remove surrounding whitespace. -/
def pyStrip (s : String) : String :=
  ⟨((s.data.dropWhile Char.isWhitespace).reverse.dropWhile
      Char.isWhitespace).reverse⟩

namespace ShellHell

/-! ### Data model (models/items.py, models/dungeon.py, models/npc.py,
models/player.py, models/grimoire.py) — the fields the pipeline reads. -/

structure Item where
  id : String := ""
  name : String
  deriving Repr, DecidableEq

structure Monster where
  name : String
  hp : ℤ
  defense : ℤ := 0
  stunned : Bool := false
  deriving Repr, DecidableEq

structure NPC where
  name : String
  role : String
  alive : Bool := true
  deriving Repr, DecidableEq

structure Room where
  monster : Option Monster := none
  loot : List Item := []
  npc : Option NPC := none
  /-- `room.assigned_object['name']` when a palette object is assigned. -/
  assigned_object : Option String := none
  discovered_objects : List String := []
  destroyed_objects : List String := []
  description : Option String := none
  deriving Repr, DecidableEq

structure Attributes where
  strength : ℤ := 10
  dexterity : ℤ := 10
  wisdom : ℤ := 10
  intelligence : ℤ := 10
  deriving Repr, DecidableEq

/-- A spell of the grimoire (grimoire.py lines 7-18). -/
structure Spell where
  name : String
  effect_type : String
  magnitude : String
  components : List String
  gesture : String := ""
  words : String
  plausibility : ℚ
  discovery_context : String := ""
  uses : ℕ := 0
  deriving Repr, DecidableEq

/-- A timed buff (models/player.py `Buff`). -/
structure Buff where
  name : String
  type : String
  value : ℤ
  duration : ℤ
  deriving Repr, DecidableEq

structure Player where
  inventory : List Item := []
  /-- `player.equipment`: slot → equipped item or `None`. -/
  equipment : List (String × Option Item) := []
  hp : ℤ := 20
  max_hp : ℤ := 20
  gold : ℤ := 0
  xp : ℤ := 0
  attributes : Attributes := {}
  buffs : List Buff := []
  grimoire : List Spell := []
  deriving Repr, DecidableEq

/-- The structured intent dictionary produced by the interpreter.  Every
field is optional, mirroring `intent.get(key, default)` access; a missing
key and an explicit `None` are conflated. -/
structure Intent where
  action_type : Option String := none
  target : Option String := none
  method : Option String := none
  plausibility : Option ℚ := none
  valid : Option Bool := none
  reason_if_invalid : Option String := none
  components_used : Option (List String) := none
  deriving Repr, DecidableEq

/-- The dictionary returned by `ActionValidator.validate`. -/
inductive VResult
  | allowed
  | denied (reason : String)
  deriving Repr, DecidableEq

/-! ### Dice/Check Engine (actions.py lines 9-59) -/

/-- `DiceRoller.attribute_check` with the two potential d20 rolls injected
(`roll1` is used for a plain check; `roll2` only under (dis)advantage). -/
def attribute_check (attribute_value difficulty : ℤ)
    (advantage disadvantage : Bool) (gift_bonus : ℤ)
    (roll1 roll2 : ℤ) : Bool × ℤ × ℤ :=
  let roll :=
    if advantage || disadvantage then
      if advantage then max roll1 roll2 else min roll1 roll2
    else roll1
  let modifier := pyFloorDiv (attribute_value - 10) 2
  let total := roll + modifier + gift_bonus
  (decide (difficulty ≤ total), roll, total)

/-! ### Action Validator (actions.py lines 62-327) -/

/-- `ActionValidator.FORBIDDEN_METHODS` (actions.py lines 66-69). -/
def FORBIDDEN_METHODS : List String :=
  ["teleport", "fly", "phase_through", "time_travel",
   "summon", "resurrect", "omniscience", "invincibility"]

/-- The `ability_items` table of `ActionValidator.has_ability`
(actions.py lines 314-318). -/
def abilityItems (ability : String) : List String :=
  if ability = "fly" then ["wings", "levitation potion", "flight spell"]
  else if ability = "teleport" then ["teleportation scroll", "warp stone"]
  else if ability = "phase_through" then ["ethereal cloak", "ghost potion"]
  else []

/-- `ActionValidator.has_ability` (actions.py lines 301-327): exact
membership of an enabling item name in the lowercased inventory names. -/
def has_ability (player : Player) (ability : String) : Bool :=
  let inventory_names_lower := player.inventory.map (fun it => lower it.name)
  (abilityItems ability).any (fun it => inventory_names_lower.contains it)

/-- The generic exploration targets that always pass the target-existence
check (actions.py lines 104-110). -/
def explorationTargets : List String :=
  ["room", "raum", "environment", "umgebung", "self",
   "ausgänge", "exits", "ausgang", "exit",
   "wände", "walls", "wand", "wall",
   "boden", "floor", "decke", "ceiling",
   "gegend", "area", "surroundings"]

/-- The "taking" keywords (actions.py lines 172 and 230). -/
def takingKeywords : List String :=
  ["nimm", "nehm", "take", "grab", "pick up", "mitnehm", "einsteck", "pack"]

/-- The hard-coded immovable-object list (actions.py lines 246-253). -/
def immovableObjects : List String :=
  ["altar", "statue", "wand", "wall", "mauer", "boden", "floor",
   "decke", "ceiling", "säule", "column", "pfeiler", "pillar",
   "tür", "door", "tor", "gate", "treppe", "stairs", "leiter", "ladder",
   "thron", "throne", "tisch", "table", "stuhl", "chair",
   "sarkophag", "sarcophagus", "grab", "grave", "gruft", "crypt",
   "brunnen", "fountain", "well", "becken", "basin", "pool"]

/-- `matches_with_declension` (actions.py lines 149-158): equality, or
bidirectional substring when both words have at least 5 characters. -/
def matchesWithDeclension (targetWord npcWord : String) : Bool :=
  targetWord == npcWord ||
    (5 ≤ targetWord.length && 5 ≤ npcWord.length &&
      (pyIn targetWord npcWord || pyIn npcWord targetWord))

/-- `re.split(r'[\s\-]+', target.lower())` filtered to words of more than 3
characters (actions.py line 211). -/
def splitTargetWords (s : String) : List (List Char) :=
  (splitOn (fun c => c.isWhitespace || c = '-') s.data).filter
    (fun w => 3 < w.length)

/-- `word_matches` (actions.py lines 216-224): the target word matches some
word of the text by bidirectional substring, both of length at least 4. -/
def wordMatches (targetWord text : List Char) : Bool :=
  let textWords := splitOn
    (fun c => c.isWhitespace || c = '-' || c = ',' || c = '.' || c = ':' ||
      c = ';' || c = '!' || c = '?') text
  textWords.any (fun textWord =>
    4 ≤ targetWord.length && 4 ≤ textWord.length &&
      (pyInL targetWord textWord || pyInL textWord targetWord))

/-- The `target_found` accumulation of `ActionValidator.validate`
(actions.py lines 114-194) over monster, room loot, inventory, equipment,
NPC, assigned palette object and discovered objects, for the lowercased
target `tl`.  (In the assigned-object branch both the taking and the
non-taking paths just set `target_found = True`.) -/
def targetFoundBase (player : Player) (room : Room) (tl : String) : Bool :=
  let foundMonster := match room.monster with
    | some m => pyIn tl (lower m.name)
    | none => false
  let foundLoot := room.loot.any (fun it => pyIn tl (lower it.name))
  let foundInv := player.inventory.any (fun it => pyIn tl (lower it.name))
  let foundEquip := player.equipment.any (fun si =>
    match si.2 with
    | some it => pyIn tl (lower it.name)
    | none => false)
  let foundNpc := match room.npc with
    | some n => n.alive &&
        (matchesWithDeclension tl (lower n.name) ||
         matchesWithDeclension tl (lower n.role))
    | none => false
  let foundAssigned := match room.assigned_object with
    | some nm =>
      let objName := lower nm
      pyIn objName tl || pyIn tl objName
    | none => false
  let foundDiscovered := room.discovered_objects.any (fun d =>
    let dl := lower d
    pyIn dl tl || pyIn tl dl)
  foundMonster || foundLoot || foundInv || foundEquip ||
    foundNpc || foundAssigned || foundDiscovered

/-- The target-existence portion of `ActionValidator.validate`
(actions.py lines 101-275) for a non-exploration target `t`.
Returns `some r` when the Python code returns early with `r`,
`none` when control falls through to the physics check. -/
def validateTarget (intent : Intent) (player : Player) (room : Room)
    (t : String) : Option VResult :=
  let tl := lower t
  let found₀ := targetFoundBase player room tl
  let fallthrough (found : Bool) : Option VResult :=
    if found then none else some (.denied ("TARGET_NOT_PRESENT: " ++ t))
  match room.description with
  | some desc =>
    if desc ≠ "" then
      if room.destroyed_objects.any (fun d =>
          pyIn (lower d) tl || pyIn tl (lower d)) then
        some (.denied ("OBJECT_DESTROYED: " ++ t ++ " ist irreparabel zerstört"))
      else
        let descLower := lower desc
        if (splitTargetWords tl).any (fun w => wordMatches w descLower.data) then
          let methodLower := lower (intent.method.getD "")
          let isTaking := takingKeywords.any (fun k => pyIn k methodLower)
          let isLootItem := room.loot.any (fun it => pyIn tl (lower it.name))
          if isTaking && !isLootItem &&
              immovableObjects.any (fun im => pyIn im tl) then
            some (.denied ("OBJECT_FIXED: " ++ t ++
              " ist fest verbaut und kann nicht mitgenommen werden"))
          else
            fallthrough true
        else
          fallthrough found₀
    else
      fallthrough found₀
  | none => fallthrough found₀

/-- `ActionValidator.validate` (actions.py lines 71-299). -/
def validate (intent : Intent) (player : Player) (room : Room) : VResult :=
  if intent.valid.getD true = false then
    .denied (intent.reason_if_invalid.getD "INTERPRETER_REJECTION")
  else if intent.plausibility.getD 0 < mkRat 1 10 then
    .denied "IMPLAUSIBLE"
  else
    let targetStep : Option VResult :=
      match intent.target with
      | none => none
      | some t =>
        if t = "" then none
        else if intent.action_type = some "physical_attack" ∨
            intent.action_type = some "social" ∨
            intent.action_type = some "interact_object" then
          if explorationTargets.contains (lower t) then none
          else validateTarget intent player room t
        else none
    match targetStep with
    | some r => r
    | none =>
      let method := lower (intent.method.getD "")
      match FORBIDDEN_METHODS.find? (fun f =>
          pyIn f method && !(has_ability player f)) with
      | some f => .denied ("PHYSICS_VIOLATION: " ++ f)
      | none =>
        let components := intent.components_used.getD []
        let inventoryNames := player.inventory.map (·.name)
        match components.find? (fun c => !(inventoryNames.contains c)) with
        | some c => .denied ("MISSING_COMPONENT: " ++ c)
        | none => .allowed

/-! ### Interpreter Gateway (ai_service.py lines 61-218) and the
fallback-intent step of `resolve_free_action` (actions.py lines 913-944) -/

/-- The relevant shape of one backend reply inside `interpret_action`:
the provider returned a falsy string, a string `json.loads` rejects, or a
JSON object (whose absent keys are `none` fields). -/
inductive LLMResponse
  | empty
  | unparsable
  | json (intent : Intent)
  deriving Repr, DecidableEq

/-- The invalid-intent dictionaries `interpret_action` builds on failure
(ai_service.py lines 97-101, 175-179, 188-192, 199-203). -/
def invalidIntent (reason : String) : Intent :=
  { valid := some false, reason_if_invalid := some reason,
    plausibility := some 0 }

/-- `AIService.interpret_action` (ai_service.py lines 61-218) as a function
of availability and the backend reply; prompt construction and logging have
no effect on the returned intent. -/
def interpret_action (available : Bool) (resp : LLMResponse) : Intent :=
  if !available then invalidIntent "AI not available"
  else
    match resp with
    | .empty => invalidIntent "LLM returned empty response"
    | .unparsable => invalidIntent "LLM returned invalid JSON"
    | .json intent =>
      if intent.action_type = none then
        invalidIntent "LLM response missing \x27action_type\x27"
      else if intent.valid = none then
        invalidIntent "LLM response missing \x27valid\x27"
      else if intent.plausibility = none then
        invalidIntent "LLM response missing \x27plausibility\x27"
      else intent

/-- The safe default intent of `resolve_free_action`
(actions.py lines 936-944). -/
def fallbackIntent (action : String) : Intent :=
  { action_type := some "interact_object", target := none,
    method := some action, plausibility := some (mkRat 1 2),
    valid := some true, reason_if_invalid := none,
    components_used := some [] }

/-- The interpretation step of `resolve_free_action`
(actions.py lines 918-944): `interpret_action` is consulted only when the
service is available, and the fallback intent replaces a falsy result
(`interpret_action` always returns a non-empty dictionary, so the fallback
fires exactly when the service is unavailable or the call raised). -/
def interpretStage (available : Bool) (resp : LLMResponse)
    (action : String) : Intent :=
  let intent : Option Intent :=
    if available then some (interpret_action available resp) else none
  match intent with
  | none => fallbackIntent action
  | some i => i

/-! ### Outcome Resolver rewards (actions.py lines 357-448) -/

/-- The mechanical delta of one action. -/
structure Impact where
  hp : ℤ := 0
  gold : ℤ := 0
  xp : ℤ := 0
  item : Option Item := none
  deriving Repr, DecidableEq

/-- The treasure keywords of `determine_rewards`
(actions.py lines 409-414). -/
def treasureKeywords : List String :=
  ["schatz", "treasure", "gold", "münz", "coin", "geld", "money",
   "plünder", "loot", "beute", "wertsach", "valuabl",
   "durchsuch", "search for", "suche nach", "finde", "versteck", "hidden",
   "truhe", "chest", "kiste", "box", "schatzkammer", "vault"]

/-- `ActionResolver.determine_rewards` (actions.py lines 357-448).
`goldRand` injects the `random.randint(5, 15)` draw for treasure critical
successes, `hpRand` the single `random.randint` draw of whichever failure
branch applies (ranges 2..5, 1..3 and 1..margin//2+1 respectively); the
10%-chance item on critical success is a `pass` in the source. -/
def determine_rewards (success : Bool) (roll_total difficulty : ℤ)
    (plausibility : ℚ) (action_type : Option String)
    (action_text : Option String) (goldRand hpRand : ℤ) : Impact :=
  if success then
    let margin := roll_total - difficulty
    let xp : ℤ :=
      if mkRat 4 5 ≤ plausibility then 0
      else if mkRat 3 5 ≤ plausibility then max 1 (pyFloorDiv difficulty 2)
      else
        let creativity_bonus := pyInt ((1 - plausibility) * 10)
        difficulty + margin * 2 + creativity_bonus
    let gold : ℤ :=
      if 10 ≤ margin ∧ action_type ≠ some "social" then
        let is_treasure_action :=
          match action_text with
          | some a => treasureKeywords.any (fun k => pyIn k (lower a))
          | none => false
        if is_treasure_action then goldRand else 0
      else 0
    { hp := 0, gold := gold, xp := xp, item := none }
  else
    let margin := difficulty - roll_total
    let hp : ℤ :=
      if 8 ≤ margin then -hpRand
      else if 5 ≤ margin then -hpRand
      else if 14 ≤ difficulty then -hpRand
      else 0
    { hp := hp, gold := 0, xp := 0, item := none }

/-! ### Magic sub-resolver (grimoire.py, actions.py lines 450-642) -/

/-- Python `set(a) == set(b)` on string lists. -/
def pySetEq (a b : List String) : Bool :=
  a.all (fun x => b.contains x) && b.all (fun x => a.contains x)

/-- `Grimoire.find_spell` (grimoire.py lines 78-85): the first spell whose
component set equals the given one and whose lowercased incantation words
equal the given ones. -/
def find_spell (spells : List Spell) (components : List String)
    (words : String) : Option Spell :=
  spells.find? (fun s =>
    pySetEq s.components components && lower s.words == lower words)

/-- Update the first element satisfying `p` (how an in-place mutation of
the object returned by `find_spell` acts on the spell list). -/
def updateFirst (p : α → Bool) (f : α → α) : List α → List α
  | [] => []
  | x :: xs => if p x then f x :: xs else x :: updateFirst p f xs

/-- A character is one of the two quote characters of the word-extraction
regex in `resolve_magic_attempt` (actions.py line 579). -/
def isQuote (c : Char) : Bool := c = '"' || c = '\x27'

/-- `re.search(r this regex: quote, one or more non-quotes, quote) .group(1)`
(actions.py lines 578-581): the earliest nonempty quoted run. -/
def extractQuoted : List Char → Option (List Char)
  | [] => none
  | c :: cs =>
    if isQuote c then
      let content := cs.takeWhile (fun d => !isQuote d)
      if content ≠ [] ∧ cs.drop content.length ≠ [] then some content
      else extractQuoted cs
    else extractQuoted cs

/-- The `magnitude_mult` table of `apply_spell_effect`
(actions.py lines 470-475). -/
def magnitudeMult (m : String) : ℚ :=
  if m = "minor" then 1
  else if m = "moderate" then mkRat 3 2
  else if m = "major" then 2
  else 1

/-- Output of `apply_spell_effect`: the impact plus the mutated player and
room monster. -/
structure SpellEffectOut where
  impact : Impact
  player : Player
  monster : Option Monster
  deriving Repr, DecidableEq

/-- `ActionResolver.apply_spell_effect` (actions.py lines 450-545).
`rand` injects the single `random.randint` draw of whichever branch runs
(the source ranges are noted inline). -/
def apply_spell_effect (spell : Spell) (player : Player)
    (monster : Option Monster) (rand : ℤ) : SpellEffectOut :=
  let mult := magnitudeMult spell.magnitude
  let monsterAlive : Bool := match monster with
    | some m => decide (0 < m.hp)
    | none => false
  if spell.effect_type = "fire" then
    if monsterAlive then
      match monster with
      | some m =>
        -- damage = int(randint(5, 15) * mult)
        { impact := { hp := 0, xp := pyInt (10 * mult) },
          player := player,
          monster := some { m with hp := m.hp - pyInt (rand * mult) } }
      | none => { impact := { xp := 1 }, player := player, monster := monster }
    else
      -- backfire: randint(1, 2)
      { impact := { hp := -rand, xp := 1 }, player := player, monster := monster }
  else if spell.effect_type = "ice" then
    if monsterAlive then
      match monster with
      | some m =>
        -- damage = int(randint(3, 10) * mult), stun
        { impact := { xp := pyInt (12 * mult) },
          player := player,
          monster := some { m with hp := m.hp - pyInt (rand * mult), stunned := true } }
      | none => { impact := { xp := 1 }, player := player, monster := monster }
    else
      { impact := { hp := -rand, xp := 1 }, player := player, monster := monster }
  else if spell.effect_type = "lightning" then
    if monsterAlive then
      match monster with
      | some m =>
        -- damage = int(randint(8, 20) * mult)
        { impact := { xp := pyInt (15 * mult) },
          player := player,
          monster := some { m with hp := m.hp - pyInt (rand * mult) } }
      | none => { impact := { xp := 1 }, player := player, monster := monster }
    else
      -- backfire: randint(2, 4)
      { impact := { hp := -rand, xp := 1 }, player := player, monster := monster }
  else if spell.effect_type = "heal" then
    -- heal_amount = int(randint(10, 20) * mult)
    let heal_amount := pyInt (rand * mult)
    { impact := { hp := heal_amount, xp := pyInt (5 * mult) },
      player := { player with hp := min player.max_hp (player.hp + heal_amount) },
      monster := monster }
  else if spell.effect_type = "shield" then
    -- buff value = int(randint(3, 8) * mult)
    let buff : Buff :=
      { name := "Magic Shield", type := "defense",
        value := pyInt (rand * mult), duration := 3 }
    { impact := { xp := pyInt (8 * mult) },
      player := { player with buffs := player.buffs ++ [buff] },
      monster := monster }
  else if spell.effect_type = "dark" then
    if monsterAlive then
      match monster with
      | some m =>
        -- damage = int(randint(6, 12) * mult), defense -2 floored at 0
        { impact := { xp := pyInt (12 * mult) },
          player := player,
          monster := some { m with hp := m.hp - pyInt (rand * mult), defense := max 0 (m.defense - 2) } }
      | none => { impact := { xp := 1 }, player := player, monster := monster }
    else
      -- backfire: randint(2, 5)
      { impact := { hp := -rand, xp := 1 }, player := player, monster := monster }
  else if spell.effect_type = "light" then
    -- heal_amount = int(randint(5, 10) * mult)
    let heal_amount := pyInt (rand * mult)
    { impact := { hp := heal_amount, xp := pyInt (6 * mult) },
      player := { player with hp := min player.max_hp (player.hp + heal_amount) },
      monster := monster }
  else
    { impact := { xp := pyInt (5 * mult) }, player := player, monster := monster }

/-- What the known-spell branch of `resolve_magic_attempt` returns, plus
the mutated player (grimoire, hp, buffs) and room monster. -/
structure MagicKnownResult where
  success : Bool
  spell_name : String
  known_spell_cast : Bool
  roll : ℤ
  total : ℤ
  difficulty : ℤ
  plausibility : ℚ
  impact : Impact
  player : Player
  monster : Option Monster
  deriving Repr, DecidableEq

/-- The word extraction of `resolve_magic_attempt`
(actions.py lines 574-581): the first quoted run of the method, else "". -/
def extractWords (method : String) : String :=
  match extractQuoted method.data with
  | some w => ⟨w⟩
  | none => ""

/-- `min(0.95, known_spell.plausibility + 0.2)`
(actions.py line 589). -/
def boostPlausibility (p : ℚ) : ℚ :=
  if p + mkRat 1 5 < mkRat 19 20 then p + mkRat 1 5 else mkRat 19 20

/-- `int(20 - (plausibility * 15))`, the plausibility → DC conversion used
at actions.py lines 590, 666 and 1193. -/
def plausibilityToDifficulty (p : ℚ) : ℤ := pyInt (20 - p * 15)

/-- The known-spell branch of `ActionResolver.resolve_magic_attempt`
(actions.py lines 568-642).  `roll1`/`roll2` inject the d20 rolls,
`effectRand` the spell-effect draw and `backfireRand` the
`random.randint(1, 3)` backfire draw.  Returns `none` when the grimoire
holds no matching spell; the source then continues into the unknown-spell
path, which consults the external magic evaluator. -/
def resolve_magic_known (intent : Intent) (player : Player)
    (monster : Option Monster) (roll1 roll2 effectRand backfireRand : ℤ) :
    Option MagicKnownResult :=
  let components_used := intent.components_used.getD []
  let method := intent.method.getD ""
  let words := extractWords method
  match find_spell player.grimoire components_used words with
  | none => none
  | some known_spell =>
    let plausibility := boostPlausibility known_spell.plausibility
    let difficulty := plausibilityToDifficulty plausibility
    let attr_value := player.attributes.intelligence
    let check := attribute_check attr_value difficulty false false 0 roll1 roll2
    let success := check.1
    let roll := check.2.1
    let total := check.2.2
    -- known_spell.uses += 1 (in place, before the success branch)
    let grimoire' := updateFirst
      (fun s => pySetEq s.components components_used &&
        lower s.words == lower words)
      (fun s => { s with uses := s.uses + 1 }) player.grimoire
    let player' := { player with grimoire := grimoire' }
    if success then
      let eff := apply_spell_effect known_spell player' monster effectRand
      some { success := true, spell_name := known_spell.name,
             known_spell_cast := true, roll := roll, total := total,
             difficulty := difficulty, plausibility := plausibility,
             impact := eff.impact, player := eff.player,
             monster := eff.monster }
    else
      some { success := false, spell_name := known_spell.name,
             known_spell_cast := false, roll := roll, total := total,
             difficulty := difficulty, plausibility := plausibility,
             impact := { hp := -backfireRand, gold := 0, xp := 0, item := none },
             player := player', monster := monster }

/-! ### Orchestrator: failure tracking and outcome application
(actions.py lines 1599-1919) -/

/-- The `game.last_failed_action` / `game.fail_count` pair. -/
structure FailTrack where
  last_failed_action : String := ""
  fail_count : ℤ := 0
  deriving Repr, DecidableEq

/-- The repeated-failure tracking fragment of `execute_free_action`
(actions.py lines 1724-1747), run once per resolved non-rejected,
non-equip action with the raw action text, the success flag and the
intent's target; on the third consecutive failure of the same normalized
text the target is appended to `room.destroyed_objects` and the tracker
resets. -/
def failStep (ft : FailTrack) (room : Room) (action : String)
    (success : Bool) (target : Option String) : FailTrack × Room :=
  if success then
    ({ ft with last_failed_action := "", fail_count := 0 }, room)
  else
    let action_normalized := pyStrip (lower action)
    let ft1 :=
      if action_normalized == ft.last_failed_action then
        { ft with fail_count := ft.fail_count + 1 }
      else
        { last_failed_action := action_normalized, fail_count := 1 }
    if 3 ≤ ft1.fail_count then
      match target with
      | some t =>
        if t = "" then (ft1, room)
        else
          ({ last_failed_action := "", fail_count := 0 },
           { room with destroyed_objects := room.destroyed_objects ++ [t] })
      | none => (ft1, room)
    else (ft1, room)

/-- The structured payload `narrate_action_result` returns to the
orchestrator (ai_service.py lines 843-1037): flavor text plus optional
discoveries.  Every return path of the gateway — unavailable backend,
empty reply, parsed JSON, or the regex fallback — produces a value of this
shape, and none of them reads or writes the resolver's impact. -/
structure NarrationResult where
  narrative : String := ""
  discovered_gold : ℤ := 0
  discovered_items : List String := []
  discovered_objects : List String := []
  deriving Repr, DecidableEq

/-- The currency keywords of the discovered-item loop
(actions.py line 1844). -/
def currencyKeywords : List String :=
  ["münze", "coin", "gold", "silber", "kupfer", "geld", "money"]

/-- Python `str.replace(' ', '_')`. -/
def replaceSpace (s : String) : String :=
  ⟨s.data.map (fun c => if c = ' ' then '_' else c)⟩

/-- The discovered-items loop of `execute_free_action`
(actions.py lines 1835-1862): currency-named discoveries become gold
(`coinRand idx` injects the `random.randint(5, 20)` draw of the `idx`-th
currency conversion), all others are appended to the room loot as material
items. -/
def processDiscoveredItems (coinRand : ℕ → ℤ) (idx : ℕ) :
    List String → Player → Room → Player × Room
  | [], p, r => (p, r)
  | nm :: rest, p, r =>
    if currencyKeywords.any (fun k => pyIn k (lower nm)) then
      processDiscoveredItems coinRand (idx + 1) rest
        { p with gold := p.gold + coinRand idx } r
    else
      let it : Item :=
        { id := "discovered_" ++ toString r.loot.length ++ "_" ++
            replaceSpace (lower nm),
          name := nm }
      processDiscoveredItems coinRand idx rest p
        { r with loot := r.loot ++ [it] }

/-- The narration-processing block of `execute_free_action`
(actions.py lines 1827-1871): positive discovered gold is added, the
discovered-items loop runs, and new discovered objects are recorded
(skipping duplicates). -/
def applyNarration (n : NarrationResult) (coinRand : ℕ → ℤ)
    (player : Player) (room : Room) : Player × Room :=
  let player :=
    if 0 < n.discovered_gold then
      { player with gold := player.gold + n.discovered_gold }
    else player
  let pr := processDiscoveredItems coinRand 0 n.discovered_items player room
  let room' := pr.2
  let discovered := n.discovered_objects.foldl
    (fun acc o => if acc.contains o then acc else acc ++ [o])
    room'.discovered_objects
  (pr.1, { room' with discovered_objects := discovered })

/-- The impact-application block of `execute_free_action`
(actions.py lines 1881-1907): hp is clamped to `[0, max_hp]`, positive
gold and xp are added, and an impact item joins the inventory. -/
def applyImpact (impact : Impact) (player : Player) : Player :=
  let player :=
    if impact.hp ≠ 0 then
      { player with hp := max 0 (min player.max_hp (player.hp + impact.hp)) }
    else player
  let player :=
    if 0 < impact.gold then { player with gold := player.gold + impact.gold }
    else player
  let player :=
    if 0 < impact.xp then { player with xp := player.xp + impact.xp }
    else player
  match impact.item with
  | some it => { player with inventory := player.inventory ++ [it] }
  | none => player

/-- One step of the component-consumption loop
(actions.py lines 1913-1919): remove the first inventory item whose name
contains the component case-insensitively, then `break`. -/
def removeFirstComponent (component : String) : List Item → List Item
  | [] => []
  | it :: rest =>
    if pyIn (lower component) (lower it.name) then rest
    else it :: removeFirstComponent component rest

/-- The component-consumption block of `execute_free_action`
(actions.py lines 1909-1919), run only on success. -/
def consumeComponents (inv : List Item) (components : List String) :
    List Item :=
  components.foldl (fun inv c => removeFirstComponent c inv) inv

/-- The fields of the `resolve_free_action` result record that the
orchestrator's state-application tail reads. -/
structure ActionOutcome where
  success : Bool
  rejected : Bool := false
  impact : Impact := {}
  intent : Intent := {}
  deriving Repr, DecidableEq

/-- The state-mutating tail of `execute_free_action` for a resolved free
action (actions.py lines 1639-1919): the rejected short-circuit, the
failure tracking, the narration discoveries, the impact application and
the component consumption, in source order.  The omitted equip, backstab,
treasure-room, NPC-conversation, hidden-key and door special cases either
return before this tail or read only the action text and pre-narration
room state, never the narration result. -/
def executeOutcome (action : String) (result : ActionOutcome)
    (n : NarrationResult) (coinRand : ℕ → ℤ)
    (player : Player) (room : Room) (ft : FailTrack) :
    Player × Room × FailTrack :=
  if result.rejected then (player, room, ft)
  else
    let ftr := failStep ft room action result.success result.intent.target
    let pr := applyNarration n coinRand player ftr.2
    let p2 := applyImpact result.impact pr.1
    let comps := result.intent.components_used.getD []
    let p3 :=
      if result.success then
        { p2 with inventory := consumeComponents p2.inventory comps }
      else p2
    (p3, pr.2, ftr.1)

/-- The coin conversions of the currency-named discovered items of one
narration result, summed against the injected `random.randint(5, 20)`
stream. -/
def currencySum (coinRand : ℕ → ℤ) (idx : ℕ) : List String → ℤ
  | [] => 0
  | nm :: rest =>
    if currencyKeywords.any (fun k => pyIn k (lower nm)) then
      coinRand idx + currencySum coinRand (idx + 1) rest
    else currencySum coinRand idx rest

/-- The narration-derived gold of one run of the orchestrator tail: the
positively-guarded `discovered_gold` plus the coin conversions of the
currency-named discovered items. -/
def narrationGold (n : NarrationResult) (coinRand : ℕ → ℤ) : ℤ :=
  (if 0 < n.discovered_gold then n.discovered_gold else 0) +
    currencySum coinRand 0 n.discovered_items

/-! ### A concrete grimoire fixture (the spec's "Flame Burst" scenario) -/

/-- The known spell of the spec's known-spell-cast scenario. -/
def flameBurst : Spell :=
  { name := "Flame Burst", effect_type := "fire", magnitude := "moderate",
    components := ["rubinstaub"], words := "ignis maxima",
    plausibility := mkRat 1 10 }

/-- A caster holding only `flameBurst`. -/
def flameCaster : Player :=
  { attributes := { intelligence := 10 }, grimoire := [flameBurst] }

/-- An `attempt_magic` intent whose quoted words and components match
`flameBurst`. -/
def flameIntent : Intent :=
  { action_type := some "attempt_magic", target := some "goblin",
    method := some "sage \x27ignis maxima\x27 laut",
    components_used := some ["rubinstaub"] }

end ShellHell

open ShellHell

/-! ### General lemmas about the Python-semantics helpers -/

theorem lowerChar_idem (c : Char) : lowerChar (lowerChar c) = lowerChar c := by
  by_cases h : 65 ≤ c.toNat ∧ c.toNat ≤ 90
  · have e : lowerChar c = Char.ofNat (c.toNat + 32) := by
      unfold lowerChar Char.toLower
      exact if_pos h
    rw [e]
    obtain ⟨h1, h2⟩ := h
    set n := c.toNat with hn
    interval_cases n <;> decide
  · have e : lowerChar c = c := by
      unfold lowerChar Char.toLower
      exact if_neg h
    rw [e, e]

theorem lower_map_idem (l : List Char) :
    (l.map lowerChar).map lowerChar = l.map lowerChar := by
  induction l with
  | nil => rfl
  | cons c cs ih => simp [ih, lowerChar_idem]

theorem lower_idem (s : String) : lower (lower s) = lower s := by
  unfold lower
  exact congrArg String.mk (lower_map_idem s.data)

theorem pyIn_refl (s : String) : pyIn s s = true := by
  simp [pyIn, pyInL, List.infix_refl]

theorem lower_eq_empty_iff (s : String) : lower s = "" ↔ s = "" := by
  unfold lower
  constructor
  · intro h
    have : s.data.map lowerChar = [] := congrArg String.data h
    have hdata : s.data = [] := List.map_eq_nil_iff.mp this
    cases s
    exact congrArg String.mk hdata
  · intro h
    rw [h]
    rfl

/-! ### C1 -/

/-- C1 counterexample: with the backend available but returning an empty
response, the interpretation stage does not yield the safe default intent;
it yields an invalid intent that the validator rejects, so the pipeline
proceeds with a rejection caused by the backend failure. -/
theorem interpret_empty_response_counterexample :
    interpretStage true .empty "hit the wall" ≠
      fallbackIntent "hit the wall" ∧
    (interpretStage true .empty "hit the wall").valid = some false ∧
    validate (interpretStage true .empty "hit the wall") {} {} =
      .denied "LLM returned empty response" := by
  refine ⟨by decide, by decide, by decide⟩

/-- C1 (amended): the safe default intent
`{action_type: interact_object, target: null, method: <text>,
plausibility: 0.5, valid: true, components_used: []}` is produced exactly
when the backend is unavailable (or the interpreter call raised); on an
empty response, unparsable JSON, or JSON missing a required key,
`interpret_action` instead returns an invalid intent with `valid = false`
and `plausibility = 0.0`, which the validator then denies with the
interpreter's failure reason. -/
theorem interpretStage_fallback_amended
    (action : String) (r : LLMResponse) (i : Intent)
    (player : Player) (room : Room)
    (hmiss : i.action_type = none) :
    interpretStage false r action = fallbackIntent action ∧
    (fallbackIntent action).valid = some true ∧
    (fallbackIntent action).plausibility = some (mkRat 1 2) ∧
    interpretStage true .empty action =
      invalidIntent "LLM returned empty response" ∧
    interpretStage true .unparsable action =
      invalidIntent "LLM returned invalid JSON" ∧
    interpretStage true (.json i) action =
      invalidIntent "LLM response missing \x27action_type\x27" ∧
    (∀ reason, validate (invalidIntent reason) player room =
      .denied reason) := by
  refine ⟨rfl, rfl, rfl, rfl, rfl, ?_, ?_⟩
  · simp [interpretStage, interpret_action, hmiss]
  · intro reason
    simp [validate, invalidIntent]

/-- C1 witness. -/
theorem interpretStage_fallback_amended_witness :
    interpretStage false .empty "hit the wall" =
      fallbackIntent "hit the wall" ∧
    interpretStage true (.json {}) "hit the wall" =
      invalidIntent "LLM response missing \x27action_type\x27" := by
  have h := interpretStage_fallback_amended "hit the wall" .empty
    ({} : Intent) ({} : Player) ({} : Room) rfl
  exact ⟨h.1, h.2.2.2.2.2.1⟩

/-! ### C3 -/

/-- C3 counterexample: "wall" is listed in `room.destroyed_objects` and
matches the target bidirectionally, yet a validate call with that target
and action_type `interact_object` is allowed, because generic exploration
words bypass the whole target-existence block (destroyed check included). -/
theorem validate_destroyed_not_blocked_counterexample :
    (let room : Room :=
      { destroyed_objects := ["wall"], description := some "Ein Raum" }
     let intent : Intent :=
      { action_type := some "interact_object", target := some "wall",
        method := some "untersuche", plausibility := some (mkRat 1 2),
        valid := some true, components_used := some [] }
     (room.destroyed_objects.any (fun dd =>
        pyIn (lower dd) (lower "wall") || pyIn (lower "wall") (lower dd)))
        = true ∧
     validate intent {} room = .allowed) := by
  exact ⟨by decide, by decide⟩

/-- C3 (amended): for a valid intent with plausibility ≥ 0.1, a target in
{physical_attack, social, interact_object} position that is not a generic
exploration word, and a room whose description is non-empty, any entry of
`room.destroyed_objects` matching the target bidirectionally forces the
denial `OBJECT_DESTROYED`, regardless of the target also matching the
monster, loot, inventory, equipment, NPC, assigned or discovered objects,
or the description text. -/
theorem validate_destroyed_blocks
    (intent : Intent) (player : Player) (room : Room) (t d : String)
    (hvalid : intent.valid.getD true = true)
    (hpl : mkRat 1 10 ≤ intent.plausibility.getD 0)
    (htarget : intent.target = some t) (ht : t ≠ "")
    (hact : intent.action_type = some "physical_attack" ∨
      intent.action_type = some "social" ∨
      intent.action_type = some "interact_object")
    (hexp : explorationTargets.contains (lower t) = false)
    (hdesc : room.description = some d) (hd : d ≠ "")
    (hdestroyed : room.destroyed_objects.any (fun dd =>
      pyIn (lower dd) (lower t) || pyIn (lower t) (lower dd)) = true) :
    validate intent player room =
      .denied ("OBJECT_DESTROYED: " ++ t ++ " ist irreparabel zerstört") := by
  unfold validate
  rw [hvalid, if_neg (by simp), if_neg (not_lt.mpr hpl), htarget]
  simp only [if_neg ht, if_pos hact, hexp, Bool.false_eq_true, if_false]
  unfold validateTarget
  rw [hdesc]
  simp only [if_pos hd, hdestroyed, if_true]

/-- C3 witness. -/
theorem validate_destroyed_blocks_witness :
    validate
      { action_type := some "interact_object", target := some "Truhe",
        method := some "öffne die truhe", plausibility := some (mkRat 1 2),
        valid := some true, components_used := some [] }
      { inventory := [{ name := "Truhe" }] }
      { loot := [{ name := "Truhe" }],
        monster := some { name := "Truhenmonster", hp := 5 },
        destroyed_objects := ["truhe"],
        description := some "Eine alte Truhe steht hier" } =
      .denied ("OBJECT_DESTROYED: Truhe ist irreparabel zerstört") := by
  have h := validate_destroyed_blocks
    { action_type := some "interact_object", target := some "Truhe",
      method := some "öffne die truhe", plausibility := some (mkRat 1 2),
      valid := some true, components_used := some [] }
    { inventory := [{ name := "Truhe" }] }
    { loot := [{ name := "Truhe" }],
      monster := some { name := "Truhenmonster", hp := 5 },
      destroyed_objects := ["truhe"],
      description := some "Eine alte Truhe steht hier" }
    "Truhe" "Eine alte Truhe steht hier"
    rfl (by decide) rfl (by decide) (Or.inr (Or.inr rfl)) (by decide)
    rfl (by decide) (by decide)
  exact h

/-! ### C5 -/

/-- C5 counterexample: the inventory holds an item named exactly "Schwert"
and the intent targets "schwert" with action_type `interact_object`, a
clean method and no components, yet validation does not allow — a
destroyed-objects entry overrides the exact name match. -/
theorem validate_exact_match_denied_counterexample :
    (let player : Player := { inventory := [{ name := "Schwert" }] }
     let room : Room :=
      { destroyed_objects := ["schwert"], description := some "Irgendwas" }
     let intent : Intent :=
      { action_type := some "interact_object",
        target := some (lower "Schwert"), method := some "benutze",
        plausibility := some (mkRat 1 2), valid := some true,
        components_used := some [] }
     (player.inventory.any (fun it => it.name == "Schwert")) = true ∧
     validate intent player room ≠ .allowed) := by
  exact ⟨by decide, by decide⟩

/-- C5 (amended): for every item of the inventory, equipment or room loot
with name `N` of length ≥ 1, a valid intent with action_type
`interact_object`, target `N.lower()`, plausibility ≥ 0.1, a method free of
forbidden-ability keywords and empty `components_used` is allowed —
provided additionally that no `destroyed_objects` entry matches the target
bidirectionally and the method contains no taking keyword (either of which
can override the exact name match through the description path). -/
theorem validate_exact_match_allows
    (intent : Intent) (player : Player) (room : Room) (N : String)
    (hvalid : intent.valid.getD true = true)
    (hpl : mkRat 1 10 ≤ intent.plausibility.getD 0)
    (hact : intent.action_type = some "interact_object")
    (htarget : intent.target = some (lower N))
    (hN : N ≠ "")
    (hitem : (∃ it ∈ player.inventory, it.name = N) ∨
      (∃ p ∈ player.equipment, ∃ it, p.2 = some it ∧ it.name = N) ∨
      (∃ it ∈ room.loot, it.name = N))
    (hmethod : ∀ f ∈ FORBIDDEN_METHODS,
      pyIn f (lower (intent.method.getD "")) = false)
    (hcomps : intent.components_used.getD [] = [])
    (hnodestroyed : ∀ dd ∈ room.destroyed_objects,
      pyIn (lower dd) (lower N) = false ∧ pyIn (lower N) (lower dd) = false)
    (hnotaking : ∀ k ∈ takingKeywords,
      pyIn k (lower (intent.method.getD "")) = false) :
    validate intent player room = .allowed := by
  have hphys : FORBIDDEN_METHODS.find? (fun f =>
      pyIn f (lower (intent.method.getD "")) && !(has_ability player f)) =
      none := by
    apply List.find?_eq_none.mpr
    intro f hf
    simp [hmethod f hf]
  have hfound : targetFoundBase player room (lower N) = true := by
    unfold targetFoundBase
    rcases hitem with ⟨it, hmem, hname⟩ | ⟨p, hmem, it, hp2, hname⟩ |
        ⟨it, hmem, hname⟩
    · have : player.inventory.any
          (fun it => pyIn (lower N) (lower it.name)) = true :=
        List.any_eq_true.mpr ⟨it, hmem, by rw [hname]; exact pyIn_refl _⟩
      simp [this]
    · have : player.equipment.any (fun si =>
          match si.2 with
          | some it => pyIn (lower N) (lower it.name)
          | none => false) = true := by
        apply List.any_eq_true.mpr
        refine ⟨p, hmem, ?_⟩
        rw [hp2]
        show pyIn (lower N) (lower it.name) = true
        rw [hname]
        exact pyIn_refl _
      simp [this]
    · have : room.loot.any
          (fun it => pyIn (lower N) (lower it.name)) = true :=
        List.any_eq_true.mpr ⟨it, hmem, by rw [hname]; exact pyIn_refl _⟩
      simp [this]
  have htaking : takingKeywords.any
      (fun k => pyIn k (lower (intent.method.getD ""))) = false := by
    apply List.any_eq_false.mpr
    intro k hk
    simp [hnotaking k hk]
  have hdestr : room.destroyed_objects.any (fun dd =>
      pyIn (lower dd) (lower N) || pyIn (lower N) (lower dd)) = false := by
    apply List.any_eq_false.mpr
    intro dd hdd
    simp [(hnodestroyed dd hdd).1, (hnodestroyed dd hdd).2]
  have hvt : validateTarget intent player room (lower N) = none := by
    unfold validateTarget
    simp only [lower_idem, hfound, htaking, hdestr]
    cases hd : room.description with
    | none => simp
    | some d =>
      by_cases hde : d = ""
      · simp [hde]
      · by_cases hanchor : (splitTargetWords (lower N)).any
            (fun w => wordMatches w (lower d).data) = true
        · simp [hde, hanchor, htaking, hdestr, hfound, lower_idem]
        · simp [hde, hanchor, htaking, hdestr, hfound, lower_idem]
  unfold validate
  rw [hvalid, if_neg (by simp), if_neg (not_lt.mpr hpl), htarget]
  have hlt : ¬(lower N = "") := fun h => hN ((lower_eq_empty_iff N).mp h)
  simp only [if_neg hlt, if_pos (Or.inr (Or.inr hact) :
    intent.action_type = some "physical_attack" ∨
    intent.action_type = some "social" ∨
    intent.action_type = some "interact_object")]
  by_cases hexp : explorationTargets.contains (lower (lower N)) = true
  · simp only [lower_idem] at hexp
    simp only [lower_idem, hexp, if_true, hphys, hcomps]
    rfl
  · simp only [lower_idem] at hexp
    simp only [lower_idem, hexp, Bool.false_eq_true, if_false, hvt,
      hphys, hcomps]
    rfl

/-- C5 witness. -/
theorem validate_exact_match_allows_witness :
    validate
      { action_type := some "interact_object", target := some "fackel",
        method := some "untersuche die fackel",
        plausibility := some (mkRat 7 10), valid := some true,
        components_used := some [] }
      { inventory := [{ name := "Fackel" }] }
      { description := some "Ein dunkler Gang" } = .allowed := by
  have h := validate_exact_match_allows
    { action_type := some "interact_object", target := some "fackel",
      method := some "untersuche die fackel",
      plausibility := some (mkRat 7 10), valid := some true,
      components_used := some [] }
    { inventory := [{ name := "Fackel" }] }
    { description := some "Ein dunkler Gang" }
    "Fackel" rfl (by decide) rfl (by decide) (by decide)
    (Or.inl ⟨{ name := "Fackel" }, by decide, rfl⟩)
    (by decide) rfl (by decide) (by decide)
  exact h

/-! ### C6 -/

/-- C6 counterexample: "Rubin" is a proper substring of the inventory item
name "Rubinstaub", yet the validator denies with `MISSING_COMPONENT:
Rubin` — the component check is exact list membership, not substring. -/
theorem validate_component_substring_denied_counterexample :
    (let player : Player := { inventory := [{ name := "Rubinstaub" }] }
     let intent : Intent :=
      { action_type := none, target := none, method := some "benutze",
        plausibility := some (mkRat 1 2), valid := some true,
        components_used := some ["Rubin"] }
     pyIn "Rubin" "Rubinstaub" = true ∧ "Rubin" ≠ "Rubinstaub" ∧
     validate intent player {} = .denied "MISSING_COMPONENT: Rubin") := by
  exact ⟨by decide, by decide, by decide⟩

/-- C6 (amended): given the earlier validator checks pass, validate denies
with `MISSING_COMPONENT: <name>` exactly when some name of
`components_used` is not *exactly equal* (case-sensitively) to any
inventory item name — the first such name is reported; consequently a
component name that is only a proper substring of an inventory item's name
is denied, not accepted. -/
theorem validate_component_exact_membership
    (intent : Intent) (player : Player) (room : Room)
    (hvalid : intent.valid.getD true = true)
    (hpl : mkRat 1 10 ≤ intent.plausibility.getD 0)
    (htarget : intent.target = none)
    (hmethod : ∀ f ∈ FORBIDDEN_METHODS,
      pyIn f (lower (intent.method.getD "")) = false) :
    validate intent player room =
      (match (intent.components_used.getD []).find?
          (fun c => !((player.inventory.map (fun it => it.name)).contains c))
        with
      | some c => VResult.denied ("MISSING_COMPONENT: " ++ c)
      | none => VResult.allowed) ∧
    (validate intent player room = .allowed ↔
      ∀ c ∈ intent.components_used.getD [],
        c ∈ player.inventory.map (fun it => it.name)) := by
  have hphys : FORBIDDEN_METHODS.find? (fun f =>
      pyIn f (lower (intent.method.getD "")) && !(has_ability player f)) =
      none := by
    apply List.find?_eq_none.mpr
    intro f hf
    simp [hmethod f hf]
  have hmain : validate intent player room =
      (match (intent.components_used.getD []).find?
          (fun c => !((player.inventory.map (fun it => it.name)).contains c))
        with
      | some c => VResult.denied ("MISSING_COMPONENT: " ++ c)
      | none => VResult.allowed) := by
    unfold validate
    rw [hvalid, if_neg (by simp), if_neg (not_lt.mpr hpl), htarget]
    simp only [hphys]
  refine ⟨hmain, ?_⟩
  rw [hmain]
  cases hfind : (intent.components_used.getD []).find?
      (fun c => !((player.inventory.map (fun it => it.name)).contains c)) with
  | none =>
    simp only [List.find?_eq_none] at hfind
    simp only [true_iff]
    intro c hc
    have := hfind c hc
    simpa using this
  | some c =>
    have hmem := List.find?_some hfind
    have hcmem := List.mem_of_find?_eq_some hfind
    constructor
    · intro h
      cases h
    · intro hall
      have hin := hall c hcmem
      simp only [List.mem_map] at hin
      obtain ⟨it, hit, hname⟩ := hin
      simp at hmem
      exact absurd hname (hmem it hit)

/-- C6 witness. -/
theorem validate_component_exact_membership_witness :
    validate
      { action_type := none, target := none, method := some "mische",
        plausibility := some (mkRat 1 2), valid := some true,
        components_used := some ["Rubinstaub"] }
      { inventory := [{ name := "Rubinstaub" }] } {} = .allowed := by
  have h := validate_component_exact_membership
    { action_type := none, target := none, method := some "mische",
      plausibility := some (mkRat 1 2), valid := some true,
      components_used := some ["Rubinstaub"] }
    { inventory := [{ name := "Rubinstaub" }] } {}
    rfl (by decide) rfl (by decide)
  exact h.2.mpr (by decide)

/-! ### C7 -/

/-- C7: for two successful actions with identical (nonnegative) margin and
identical (nonnegative) difficulty, the lower-plausibility one earns XP
greater than or equal to the higher-plausibility one — XP from
`determine_rewards` is monotonically non-increasing in plausibility across
the ≥0.8 / ≥0.6 / creative branch boundaries. -/
theorem determine_rewards_xp_antitone
    (total d : ℤ) (p1 p2 : ℚ) (aty atext : Option String) (gr hr : ℤ)
    (hp : p1 ≤ p2) (hd : 0 ≤ d) (hm : d ≤ total) :
    (determine_rewards true total d p2 aty atext gr hr).xp ≤
      (determine_rewards true total d p1 aty atext gr hr).xp := by
  have hxp : ∀ p : ℚ, (determine_rewards true total d p aty atext gr hr).xp =
      (if mkRat 4 5 ≤ p then 0
       else if mkRat 3 5 ≤ p then max 1 (pyFloorDiv d 2)
       else d + (total - d) * 2 + pyInt ((1 - p) * 10)) := by
    intro p
    simp [determine_rewards]
  rw [hxp p1, hxp p2]
  have e45 : (mkRat 4 5 : ℚ) = 4 / 5 := by norm_num [mkRat]
  have e35 : (mkRat 3 5 : ℚ) = 3 / 5 := by norm_num [mkRat]
  rw [e45, e35]
  have hmargin : (0 : ℤ) ≤ total - d := by omega
  have hfdiv : pyFloorDiv d 2 ≤ d := by
    unfold pyFloorDiv
    rw [Int.fdiv_eq_ediv d (by norm_num)]
    exact Int.ediv_le_self 2 hd
  have hcreat : ∀ p : ℚ, p < 3 / 5 → (4 : ℤ) ≤ pyInt ((1 - p) * 10) := by
    intro p hplt
    have hnn : (0 : ℚ) ≤ (1 - p) * 10 := by nlinarith
    unfold pyInt
    rw [if_pos hnn]
    rw [Int.le_floor]
    push_cast
    nlinarith
  have hcreat0 : ∀ p : ℚ, p < 3 / 5 → (0 : ℤ) ≤ pyInt ((1 - p) * 10) := by
    intro p hplt
    have := hcreat p hplt
    omega
  by_cases h2a : 4 / 5 ≤ p2
  · rw [if_pos h2a]
    by_cases h1a : 4 / 5 ≤ p1
    · rw [if_pos h1a]
    · rw [if_neg h1a]
      by_cases h1b : 3 / 5 ≤ p1
      · rw [if_pos h1b]
        have : (1 : ℤ) ≤ max 1 (pyFloorDiv d 2) := le_max_left 1 _
        omega
      · rw [if_neg h1b]
        have h4 := hcreat0 p1 (by linarith)
        omega
  · rw [if_neg h2a]
    have h1a : ¬(4 / 5 ≤ p1) := fun h => h2a (le_trans h hp)
    rw [if_neg h1a]
    by_cases h2b : 3 / 5 ≤ p2
    · rw [if_pos h2b]
      by_cases h1b : 3 / 5 ≤ p1
      · rw [if_pos h1b]
      · rw [if_neg h1b]
        have h4 := hcreat p1 (by linarith)
        have hmax : max 1 (pyFloorDiv d 2) ≤
            d + (total - d) * 2 + pyInt ((1 - p1) * 10) := by
          apply max_le
          · omega
          · have := hfdiv
            omega
        exact hmax
    · rw [if_neg h2b]
      have h1b : ¬(3 / 5 ≤ p1) := fun h => h2b (le_trans h hp)
      rw [if_neg h1b]
      have hmono : pyInt ((1 - p2) * 10) ≤ pyInt ((1 - p1) * 10) := by
        have hnn2 : (0 : ℚ) ≤ (1 - p2) * 10 := by nlinarith
        have hnn1 : (0 : ℚ) ≤ (1 - p1) * 10 := by nlinarith
        unfold pyInt
        rw [if_pos hnn2, if_pos hnn1]
        apply Int.floor_le_floor
        nlinarith
      omega

/-- C7 witness. -/
theorem determine_rewards_xp_antitone_witness :
    (determine_rewards true 15 12 (mkRat 7 10) none none 0 0).xp ≤
      (determine_rewards true 15 12 (mkRat 3 10) none none 0 0).xp := by
  exact determine_rewards_xp_antitone 15 12 (mkRat 3 10) (mkRat 7 10)
    none none 0 0 (by decide) (by decide) (by decide)

/-! ### C8 -/

/-- C8: starting from a tracker state whose last failed action differs
from the normalized text, three consecutive failures of the same action
with a non-null target append the target to `room.destroyed_objects` on
the third failure and reset both the fail counter and the last-failed
tracker; the first two failures leave the room untouched. -/
theorem failStep_three_failures_destroy
    (ft : FailTrack) (room : Room) (a t : String)
    (hne : (pyStrip (lower a) == ft.last_failed_action) = false)
    (ht : t ≠ "") :
    (let s1 := failStep ft room a false (some t)
     let s2 := failStep s1.1 s1.2 a false (some t)
     let s3 := failStep s2.1 s2.2 a false (some t)
     s1.2 = room ∧ s2.2 = room ∧
     s3.2.destroyed_objects = room.destroyed_objects ++ [t] ∧
     s3.1.fail_count = 0 ∧ s3.1.last_failed_action = "") := by
  have h1 : failStep ft room a false (some t) =
      (⟨pyStrip (lower a), 1⟩, room) := by
    unfold failStep
    simp [hne]
  have h2 : failStep (⟨pyStrip (lower a), 1⟩ : FailTrack) room a false
      (some t) = (⟨pyStrip (lower a), 2⟩, room) := by
    unfold failStep
    simp
  have h3 : failStep (⟨pyStrip (lower a), 2⟩ : FailTrack) room a false
      (some t) =
      (⟨"", 0⟩,
       { room with destroyed_objects := room.destroyed_objects ++ [t] }) := by
    unfold failStep
    simp [ht]
  simp [h1, h2, h3]

/-- C8 witness. -/
theorem failStep_three_failures_destroy_witness :
    (let s1 := failStep {} {} "Schlage die Tür" false (some "Tür")
     let s2 := failStep s1.1 s1.2 "Schlage die Tür" false (some "Tür")
     let s3 := failStep s2.1 s2.2 "Schlage die Tür" false (some "Tür")
     s3.2.destroyed_objects = ["Tür"] ∧ s3.1.fail_count = 0 ∧
     s3.1.last_failed_action = "") := by
  have h := failStep_three_failures_destroy {} {} "Schlage die Tür" "Tür"
    (by decide) (by decide)
  exact ⟨h.2.2.1, h.2.2.2.1, h.2.2.2.2⟩

/-! ### C4 -/

/-- C4: a failed cast of a known grimoire spell (plausibility boosted to
0.3, difficulty 15, intelligence 10, roll 5 → total 5 < 15) applies only
the 1–3 HP backfire and no spell effect, BUT still increments the spell's
use counter from 0 to 1 — the source increments `known_spell.uses` before
branching on success, contradicting the field's own documentation
("How many times successfully cast") and the spec. -/
theorem resolve_magic_known_uses_incremented_on_failure :
    resolve_magic_known flameIntent flameCaster none 5 0 7 2 =
      some { success := false, spell_name := "Flame Burst",
             known_spell_cast := false, roll := 5, total := 5,
             difficulty := 15, plausibility := mkRat 3 10,
             impact := { hp := -2, gold := 0, xp := 0, item := none },
             player :=
              { flameCaster with grimoire := [{ flameBurst with uses := 1 }] },
             monster := none } := by
  have ep : flameBurst.plausibility = mkRat 1 10 := rfl
  have eb : boostPlausibility (mkRat 1 10) = mkRat 3 10 := by
    unfold boostPlausibility
    rw [if_pos (by norm_num [mkRat])]
    norm_num [mkRat]
  have ed : plausibilityToDifficulty (mkRat 3 10) = 15 := by
    unfold plausibilityToDifficulty pyInt
    rw [if_pos (by norm_num [mkRat])]
    rw [show (20 - mkRat 3 10 * 15 : ℚ) = 31 / 2 by norm_num [mkRat]]
    have h15 : ((15 : ℤ) : ℚ) ≤ 31 / 2 ∧ (31 / 2 : ℚ) < 15 + 1 := by
      constructor <;> norm_num
    exact Int.floor_eq_iff.mpr (by push_cast; constructor <;> norm_num)
  have efs : find_spell flameCaster.grimoire
      (flameIntent.components_used.getD [])
      (extractWords (flameIntent.method.getD "")) = some flameBurst := by
    decide
  have ec : attribute_check flameCaster.attributes.intelligence 15
      false false 0 5 0 = (false, 5, 5) := by decide
  simp only [resolve_magic_known]
  rw [efs]
  simp only [ep, eb, ed, ec]
  decide

/-! ### Lemmas on the orchestrator tail -/

theorem processDiscoveredItems_player (c : ℕ → ℤ) (idx : ℕ)
    (items : List String) (p : Player) (r : Room) :
    (processDiscoveredItems c idx items p r).1.hp = p.hp ∧
    (processDiscoveredItems c idx items p r).1.max_hp = p.max_hp ∧
    (processDiscoveredItems c idx items p r).1.xp = p.xp ∧
    (processDiscoveredItems c idx items p r).1.inventory = p.inventory ∧
    (processDiscoveredItems c idx items p r).1.gold =
      p.gold + currencySum c idx items := by
  induction items generalizing idx p r with
  | nil => simp [processDiscoveredItems, currencySum]
  | cons nm rest ih =>
    by_cases hcur : currencyKeywords.any (fun k => pyIn k (lower nm)) = true
    · simp only [processDiscoveredItems, currencySum, hcur, if_true]
      have h := ih (idx + 1) { p with gold := p.gold + c idx } r
      refine ⟨h.1, h.2.1, h.2.2.1, h.2.2.2.1, ?_⟩
      rw [h.2.2.2.2]
      simp only []
      omega
    · simp only [processDiscoveredItems, currencySum, hcur,
        Bool.false_eq_true, if_false]
      exact ih idx p _

theorem applyNarration_player (n : NarrationResult) (c : ℕ → ℤ)
    (p : Player) (r : Room) :
    (applyNarration n c p r).1.hp = p.hp ∧
    (applyNarration n c p r).1.max_hp = p.max_hp ∧
    (applyNarration n c p r).1.xp = p.xp ∧
    (applyNarration n c p r).1.inventory = p.inventory ∧
    (applyNarration n c p r).1.gold = p.gold + narrationGold n c := by
  unfold applyNarration narrationGold
  by_cases hg : 0 < n.discovered_gold
  · simp only [hg, if_true]
    have h := processDiscoveredItems_player c 0 n.discovered_items
      { p with gold := p.gold + n.discovered_gold } r
    refine ⟨h.1, h.2.1, h.2.2.1, h.2.2.2.1, ?_⟩
    rw [h.2.2.2.2]
    simp only []
    omega
  · simp only [hg, if_false]
    have h := processDiscoveredItems_player c 0 n.discovered_items p r
    refine ⟨h.1, h.2.1, h.2.2.1, h.2.2.2.1, ?_⟩
    rw [h.2.2.2.2]
    omega

theorem applyImpact_fields (i : Impact) (p : Player) :
    (applyImpact i p).hp =
      (if i.hp ≠ 0 then max 0 (min p.max_hp (p.hp + i.hp)) else p.hp) ∧
    (applyImpact i p).gold = p.gold + (if 0 < i.gold then i.gold else 0) ∧
    (applyImpact i p).xp = p.xp + (if 0 < i.xp then i.xp else 0) ∧
    (applyImpact i p).inventory = p.inventory ++ i.item.toList := by
  unfold applyImpact
  cases hit : i.item <;> by_cases h1 : i.hp ≠ 0 <;>
    by_cases h2 : 0 < i.gold <;> by_cases h3 : 0 < i.xp <;>
    simp [hit, h1, h2, h3]

/-! ### C2 -/

/-- C2: for a mechanically resolved, non-rejected action with
`success = true`, the orchestrator tail applies exactly the resolver's
precomputed impact — hp clamped by it, xp and gold added from it,
the impact item appended — independent of the narration result: two runs
that differ only in the narration payload (and its coin draws) produce the
same hp, xp and inventory, and gold differs only by the strictly additive
narration discoveries. -/
theorem executeOutcome_impact_narration_independent
    (action : String) (result : ActionOutcome) (n1 n2 : NarrationResult)
    (c1 c2 : ℕ → ℤ) (player : Player) (room : Room) (ft : FailTrack)
    (hrej : result.rejected = false) (hs : result.success = true) :
    (executeOutcome action result n1 c1 player room ft).1.hp =
      (executeOutcome action result n2 c2 player room ft).1.hp ∧
    (executeOutcome action result n1 c1 player room ft).1.xp =
      (executeOutcome action result n2 c2 player room ft).1.xp ∧
    (executeOutcome action result n1 c1 player room ft).1.inventory =
      (executeOutcome action result n2 c2 player room ft).1.inventory ∧
    (executeOutcome action result n1 c1 player room ft).1.gold -
        narrationGold n1 c1 =
      (executeOutcome action result n2 c2 player room ft).1.gold -
        narrationGold n2 c2 ∧
    (executeOutcome action result n1 c1 player room ft).1.hp =
      (if result.impact.hp ≠ 0 then
        max 0 (min player.max_hp (player.hp + result.impact.hp))
       else player.hp) ∧
    (executeOutcome action result n1 c1 player room ft).1.xp =
      player.xp + (if 0 < result.impact.xp then result.impact.xp else 0) ∧
    (executeOutcome action result n1 c1 player room ft).1.gold =
      player.gold + narrationGold n1 c1 +
        (if 0 < result.impact.gold then result.impact.gold else 0) ∧
    (executeOutcome action result n1 c1 player room ft).1.inventory =
      consumeComponents (player.inventory ++ result.impact.item.toList)
        (result.intent.components_used.getD []) := by
  have key : ∀ (n : NarrationResult) (c : ℕ → ℤ),
      (executeOutcome action result n c player room ft).1.hp =
        (if result.impact.hp ≠ 0 then
          max 0 (min player.max_hp (player.hp + result.impact.hp))
         else player.hp) ∧
      (executeOutcome action result n c player room ft).1.xp =
        player.xp + (if 0 < result.impact.xp then result.impact.xp else 0) ∧
      (executeOutcome action result n c player room ft).1.gold =
        player.gold + narrationGold n c +
          (if 0 < result.impact.gold then result.impact.gold else 0) ∧
      (executeOutcome action result n c player room ft).1.inventory =
        consumeComponents (player.inventory ++ result.impact.item.toList)
          (result.intent.components_used.getD []) := by
    intro n c
    unfold executeOutcome
    rw [hrej, hs]
    simp only [Bool.false_eq_true, if_false, reduceIte]
    have hn := applyNarration_player n c player
      (failStep ft room action true result.intent.target).2
    have hi := applyImpact_fields result.impact
      (applyNarration n c player
        (failStep ft room action true result.intent.target).2).1
    refine ⟨?_, ?_, ?_, ?_⟩
    · rw [hi.1, hn.1, hn.2.1]
    · rw [hi.2.2.1, hn.2.2.1]
    · rw [hi.2.1, hn.2.2.2.2]
    · rw [hi.2.2.2, hn.2.2.2.1]
  have k1 := key n1 c1
  have k2 := key n2 c2
  refine ⟨?_, ?_, ?_, ?_, k1.1, k1.2.1, k1.2.2.1, k1.2.2.2⟩
  · rw [k1.1, k2.1]
  · rw [k1.2.1, k2.2.1]
  · rw [k1.2.2.2, k2.2.2.2]
  · rw [k1.2.2.1, k2.2.2.1]
    omega

/-- C2 witness. -/
theorem executeOutcome_impact_narration_independent_witness :
    (let result : ActionOutcome :=
      { success := true, impact := { hp := -1, xp := 3 },
        intent := { components_used := some [] } }
     let n1 : NarrationResult := { narrative := "Du triffst." }
     let n2 : NarrationResult :=
      { narrative := "Ganz anderer Text.", discovered_gold := 5 }
     (executeOutcome "schlag" result n1 (fun _ => 7) {} {} {}).1.hp =
       (executeOutcome "schlag" result n2 (fun _ => 9) {} {} {}).1.hp ∧
     (executeOutcome "schlag" result n1 (fun _ => 7) {} {} {}).1.inventory =
       (executeOutcome "schlag" result n2 (fun _ => 9) {} {} {}).1.inventory) := by
  have h := executeOutcome_impact_narration_independent "schlag"
    { success := true, impact := { hp := -1, xp := 3 },
      intent := { components_used := some [] } }
    { narrative := "Du triffst." }
    { narrative := "Ganz anderer Text.", discovered_gold := 5 }
    (fun _ => 7) (fun _ => 9) {} {} {} rfl rfl
  exact ⟨h.1, h.2.2.1⟩

/-! ### C10 -/

/-- C10: on a successful non-equip free action the orchestrator consumes
components — the final inventory is the component-consumption fold over
the inventory (with the impact item appended first), where each component
entry removes exactly the first item whose name contains it
case-insensitively (and nothing when no item matches); on failed actions
nothing is consumed (only the impact item is appended) and on rejected
actions the inventory is untouched. -/
theorem executeOutcome_component_consumption
    (action : String) (result : ActionOutcome) (n : NarrationResult)
    (c : ℕ → ℤ) (player : Player) (room : Room) (ft : FailTrack) :
    (result.rejected = false → result.success = true →
      (executeOutcome action result n c player room ft).1.inventory =
        consumeComponents (player.inventory ++ result.impact.item.toList)
          (result.intent.components_used.getD [])) ∧
    (result.rejected = false → result.success = false →
      (executeOutcome action result n c player room ft).1.inventory =
        player.inventory ++ result.impact.item.toList) ∧
    (result.rejected = true →
      (executeOutcome action result n c player room ft).1.inventory =
        player.inventory) ∧
    (∀ (comp : String) (pre post : List Item) (it : Item),
      (∀ x ∈ pre, pyIn (lower comp) (lower x.name) = false) →
      pyIn (lower comp) (lower it.name) = true →
      removeFirstComponent comp (pre ++ it :: post) = pre ++ post) ∧
    (∀ (comp : String) (inv : List Item),
      (∀ x ∈ inv, pyIn (lower comp) (lower x.name) = false) →
      removeFirstComponent comp inv = inv) := by
  refine ⟨?_, ?_, ?_, ?_, ?_⟩
  · intro hrej hs
    unfold executeOutcome
    rw [hrej, hs]
    simp only [Bool.false_eq_true, if_false, reduceIte]
    have hn := applyNarration_player n c player
      (failStep ft room action true result.intent.target).2
    have hi := applyImpact_fields result.impact
      (applyNarration n c player
        (failStep ft room action true result.intent.target).2).1
    rw [hi.2.2.2, hn.2.2.2.1]
  · intro hrej hs
    unfold executeOutcome
    rw [hrej, hs]
    simp only [Bool.false_eq_true, if_false]
    have hn := applyNarration_player n c player
      (failStep ft room action false result.intent.target).2
    have hi := applyImpact_fields result.impact
      (applyNarration n c player
        (failStep ft room action false result.intent.target).2).1
    rw [hi.2.2.2, hn.2.2.2.1]
  · intro hrej
    unfold executeOutcome
    rw [hrej]
    simp
  · intro comp pre post it hpre hit
    induction pre with
    | nil => simp [removeFirstComponent, hit]
    | cons x xs ih =>
      have hx := hpre x (by simp)
      simp only [List.cons_append, removeFirstComponent, hx,
        Bool.false_eq_true, if_false, List.append_eq]
      rw [ih (fun y hy => hpre y (by simp [hy]))]
  · intro comp inv hinv
    induction inv with
    | nil => rfl
    | cons x xs ih =>
      have hx := hinv x (by simp)
      simp only [removeFirstComponent, hx, Bool.false_eq_true, if_false]
      rw [ih (fun y hy => hinv y (by simp [hy]))]

/-- C10 witness. -/
theorem executeOutcome_component_consumption_witness :
    (executeOutcome "webe ein seil"
      { success := true, impact := {},
        intent := { components_used := some ["fackel"] } }
      {} (fun _ => 7)
      { inventory := [{ name := "Alte Fackel" }, { name := "Seil" }] }
      {} {}).1.inventory = [{ id := "", name := "Seil" }] := by
  have h := (executeOutcome_component_consumption "webe ein seil"
    { success := true, impact := {},
      intent := { components_used := some ["fackel"] } }
    {} (fun _ => 7)
    { inventory := [{ name := "Alte Fackel" }, { name := "Seil" }] }
    {} {}).1 rfl rfl
  rw [h]
  decide

/-! ### C9 -/

/-- C9: with neither advantage nor disadvantage, `attribute_check` returns
`roll = r`, `total = r + (a - 10) // 2 + b` (floor division, so attribute 9
yields modifier `-1`) and `success ↔ total ≥ difficulty`; in particular
attribute 14, difficulty 10, roll 10 gives modifier `+2`, total 12,
success — all deterministic in the injected rolls. -/
theorem attribute_check_plain (a d b r r' : ℤ) :
    ShellHell.attribute_check a d false false b r r' =
      (decide (d ≤ r + pyFloorDiv (a - 10) 2 + b), r,
        r + pyFloorDiv (a - 10) 2 + b) ∧
    pyFloorDiv (9 - 10) 2 = -1 ∧
    ShellHell.attribute_check 14 10 false false 0 10 3 = (true, 10, 12) := by
  refine ⟨rfl, by decide, by decide⟩
